import Mathlib

/-!
# AlchemyMachine: a shallow embedding of `src/main.cpp` and `src/WifiFunctions.h`

The program is an Arduino sketch: `setup()` runs once, then `loop()` runs
forever.  One execution of `loop()` is a *tick*.  We embed one tick as a pure
function `loop : MachineState → TickIn → MachineState × List CrystalEv`:

* `MachineState` collects the globals of `main.cpp` that persist across ticks
  (`puzzleState`, `solvedMillis`, the two lock pin levels, `lastUid[2]`, and
  the four `NeoPatterns` strip objects).
* `TickIn` collects what the hardware hands one tick: the debounced power and
  door booleans (`alchemyPower`, `doorClosed`), the two RFID reader results,
  and the tick's `millis()` value.  Wall-clock time is modelled at tick
  granularity: `millis()` reads inside a tick all return the tick's `now`
  (the sub-tick `delay(...)` pacing calls of the source are below the model's
  granularity and have no state effect).
* The crystal-door lock is only ever pulsed (`digitalWrite HIGH; delay(10);
  digitalWrite LOW`), so besides the pin level kept in the state, each tick
  also returns the list of crystal-pin events it performed, in order.

The repository does not ship `lights.h`; the `NeoPatterns` strip operations
used by `main.cpp` (`ActivePattern`, `Color1`, `ColorSet`, `Flash`,
`AcceleratingSequence`, `Update`, `show`) are modelled from the spec's
LightPattern Engine section (see the doc comments below).  `Update`/`show`
render pixels to hardware and advance animations; they do not change any
state the claims observe, so they are identity in the model.
-/

namespace AlchemyMachine

/-- The `PuzzleState` enum of `main.cpp`. -/
inductive PuzzleState where
  | Initializing
  | Unpowered
  | Powered
  | Solved
  | GameOver
deriving Repr, DecidableEq

/-- Modelled from the spec: the `ActivePattern` tag of a strip.  The spec
lists `None | Solid | Flash | AcceleratingSequence`; `main.cpp` only ever
names `none`, `flash` and the accelerating sequence, and the spec's
`setSolid` "clears any running pattern" (tag back to `None`), so those three
tags suffice for the embedding. -/
inductive PatternTag where
  | none
  | flash
  | acceleratingSequence
deriving Repr, DecidableEq

/-- Modelled from the spec: the observable state of one `NeoPatterns` strip
(`lights.h` is not in the repository).  `ActivePattern` is the running
pattern tag, `Color1` the pattern's primary colour parameter, and
`fillColor` abstracts the pixel array as the uniform colour written by the
last `ColorSet` (the only way `main.cpp` fills a strip). -/
structure NeoPatterns where
  ActivePattern : PatternTag
  Color1 : Nat
  fillColor : Nat
deriving Repr, DecidableEq

/-- Adafruit packed colour: `(r << 16) | (g << 8) | b`. -/
def Color (r g b : Nat) : Nat := r * 65536 + g * 256 + b

/-- Modelled from the spec: `setSolid` / `ColorSet(color, start, len)` —
"immediate, synchronous fill; clears any running pattern".  The uniform fill
becomes the strip's pixel content and its primary colour parameter. -/
def NeoPatterns.ColorSet (_s : NeoPatterns) (c : Nat) : NeoPatterns :=
  { ActivePattern := .none, Color1 := c, fillColor := c }

/-- Modelled from the spec: `startFlash` / `Flash(color, interval, start,
len, dir)` — starts an indefinite flash pattern with primary colour `c`. -/
def NeoPatterns.Flash (s : NeoPatterns) (c : Nat) : NeoPatterns :=
  { s with ActivePattern := .flash, Color1 := c }

/-- Modelled from the spec: `startAcceleratingSequence` /
`AcceleratingSequence(color, start, len, dir)` — starts the time-bounded
moving-segment pattern with primary colour `c`. -/
def NeoPatterns.AcceleratingSequence (s : NeoPatterns) (c : Nat) : NeoPatterns :=
  { s with ActivePattern := .acceleratingSequence, Color1 := c }

/-- A UID is the 8-byte buffer the PN5180 `getInventory` fills. -/
def Uid := List Nat
deriving instance DecidableEq, Repr for Uid

/-- `correctUid[0]` — the red beaker tag. -/
def correctUid0 : Uid := [0x3C, 0x33, 0x13, 0x66, 0x08, 0x01, 0x04, 0xE0]

/-- `correctUid[1]` — the blue beaker tag. -/
def correctUid1 : Uid := [0x04, 0x3A, 0x13, 0x66, 0x08, 0x01, 0x04, 0xE0]

/-- `resetUid` — the shared reset tag. -/
def resetUid : Uid := [0x24, 0x43, 0x13, 0x66, 0x08, 0x01, 0x04, 0xE0]

/-- `noUid` — the all-zero sentinel stored in `lastUid` when no tag is
present. -/
def noUid : Uid := [0, 0, 0, 0, 0, 0, 0, 0]

/-- The state of `main.cpp`'s cross-tick globals. -/
structure MachineState where
  puzzleState : PuzzleState
  solvedMillis : Nat
  /-- Level of the `beakerDoor` pin (`true` = HIGH = maglock engaged). -/
  beakerDoor : Bool
  /-- Level of the `crystalDoor` pin (`true` = HIGH = relay energized). -/
  crystalDoor : Bool
  lastUid0 : Uid
  lastUid1 : Uid
  LS1 : NeoPatterns
  LS2 : NeoPatterns
  LS3 : NeoPatterns
  LS4 : NeoPatterns
deriving Repr, DecidableEq

/-- One reader's contribution to a tick.  `read` is `some uid` when
`getInventory` succeeds (`rc == ISO15693_EC_OK`) and `none` on failure or no
tag.  `residual` models the content of the stack buffer `uint8_t thisUid[8]`
when the read fails: `getInventory` then leaves the buffer unwritten, yet the
`Solved` and `GameOver` reader loops of `main.cpp` ignore `rc` and compare
`thisUid` against `resetUid` anyway, so the indeterminate buffer contents
become an input of the model. -/
structure ReaderIn where
  read : Option Uid
  residual : Uid
deriving Repr, DecidableEq

/-- The sensor snapshot one tick consumes.  `power` is `alchemyPower`
(laser pin LOW), `door` is `doorClosed` (limit switch LOW), `now` is the
tick's `millis()` value. -/
structure TickIn where
  power : Bool
  door : Bool
  r0 : ReaderIn
  r1 : ReaderIn
  now : Nat
deriving Repr, DecidableEq

/-- Crystal-door pin events a tick performs, in order. -/
inductive CrystalEv where
  | high
  | wait (ms : Nat)
  | low
deriving Repr, DecidableEq

/-- The event trace of one crystal pulse: `digitalWrite(crystalDoor, HIGH);
delay(10); digitalWrite(crystalDoor, LOW);` as in `onSolve` and `onReset`. -/
def crystalPulse : List CrystalEv := [.high, .wait 10, .low]

/-- Unsigned 32-bit subtraction, for the `unsigned long` arithmetic
`currentMillis - solvedMillis` of the `Solved` dwell check. -/
def usub32 (a b : Nat) : Nat :=
  ((a % 4294967296) + 4294967296 - (b % 4294967296)) % 4294967296

/-- `onReset()` of `main.cpp`, state part: pulse the crystal door (level
ends LOW), unlock the beaker door, stop all patterns and fill every strip
black, and force `puzzleState = Unpowered`.  Note `lastUid` is not
cleared.  The pulse's events are `crystalPulse` (appended by the caller). -/
def onReset (s : MachineState) : MachineState :=
  { s with
    crystalDoor := false
    beakerDoor := false
    LS1 := s.LS1.ColorSet (Color 0 0 0)
    LS2 := s.LS2.ColorSet (Color 0 0 0)
    LS3 := s.LS3.ColorSet (Color 0 0 0)
    LS4 := s.LS4.ColorSet (Color 0 0 0)
    puzzleState := .Unpowered }

/-- `onSolve()` of `main.cpp`: start accelerating sequences on LS2/LS3/LS4,
busy-wait five seconds driving `Update` (sub-tick, no state the model
observes), clear all patterns, fill everything black, then set the final
colours (LS1/LS2/LS4 green, LS3 purple), pulse the crystal door (level ends
LOW), record `solvedMillis = millis()` and set `puzzleState = Solved`.
`now` is the tick's time (see the module comment on time granularity). -/
def onSolve (s : MachineState) (now : Nat) : MachineState :=
  let s := { s with
    LS2 := s.LS2.AcceleratingSequence (Color 255 0 0)
    LS3 := s.LS3.AcceleratingSequence (Color 128 0 128)
    LS4 := s.LS4.AcceleratingSequence (Color 0 0 255) }
  let s := { s with
    LS1 := s.LS1.ColorSet (Color 0 0 0)
    LS2 := s.LS2.ColorSet (Color 0 0 0)
    LS3 := s.LS3.ColorSet (Color 0 0 0)
    LS4 := s.LS4.ColorSet (Color 0 0 0) }
  { s with
    LS1 := s.LS1.ColorSet (Color 0 255 0)
    LS2 := s.LS2.ColorSet (Color 0 255 0)
    LS3 := s.LS3.ColorSet (Color 128 0 128)
    LS4 := s.LS4.ColorSet (Color 0 255 0)
    crystalDoor := false
    solvedMillis := now
    puzzleState := .Solved }

/-- `gameOver()` of `main.cpp`: unlock the beaker door and set
`puzzleState = GameOver`.  The crystal-door write there is commented out,
and no strip is touched. -/
def gameOver (s : MachineState) : MachineState :=
  { s with beakerDoor := false, puzzleState := .GameOver }

/-- The `if (LSn.ActivePattern != none) { ColorSet(black); show(); }` guard
used by the `Initializing`, `Unpowered` and `GameOver` cases. -/
def extinguishIfActive (s : NeoPatterns) : NeoPatterns :=
  if s.ActivePattern ≠ .none then s.ColorSet (Color 0 0 0) else s

/-- Accumulator threaded through the `Powered` RFID reader loop: the machine
state, the crystal events so far, and the `beakersCorrect` flag (set `true`
just before the loop). -/
structure PAcc where
  st : MachineState
  evs : List CrystalEv
  bc : Bool

/-- Iteration `i = 0` of the `Powered` reader loop.  On read failure
(`rc != ISO15693_EC_OK`): clear `lastUid[0]` if it held a tag, clear
`beakersCorrect`, and `continue`.  On success: record a changed UID in
`lastUid[0]`, clear `beakersCorrect` on a mismatch with `correctUid[0]`, and
call `onReset()` if the tag is the reset tag. -/
def poweredRead0 (r : ReaderIn) (a : PAcc) : PAcc :=
  match r.read with
  | .none =>
    let st := if a.st.lastUid0 ≠ noUid then { a.st with lastUid0 := noUid } else a.st
    ⟨st, a.evs, false⟩
  | .some uid =>
    let st := if uid ≠ a.st.lastUid0 then { a.st with lastUid0 := uid } else a.st
    let bc := if uid ≠ correctUid0 then false else a.bc
    if uid = resetUid then ⟨onReset st, a.evs ++ crystalPulse, bc⟩
    else ⟨st, a.evs, bc⟩

/-- Iteration `i = 1` of the `Powered` reader loop (same shape as
`poweredRead0`, over `lastUid[1]` and `correctUid[1]`). -/
def poweredRead1 (r : ReaderIn) (a : PAcc) : PAcc :=
  match r.read with
  | .none =>
    let st := if a.st.lastUid1 ≠ noUid then { a.st with lastUid1 := noUid } else a.st
    ⟨st, a.evs, false⟩
  | .some uid =>
    let st := if uid ≠ a.st.lastUid1 then { a.st with lastUid1 := uid } else a.st
    let bc := if uid ≠ correctUid1 then false else a.bc
    if uid = resetUid then ⟨onReset st, a.evs ++ crystalPulse, bc⟩
    else ⟨st, a.evs, bc⟩

/-- The `Powered` case of `loop()`: run the reader loop, then the
`beakersCorrect`/door branch (flash red; or engage the beaker lock and flash
green; or `onSolve()`), then the power-loss check that extinguishes every
strip and drops to `Unpowered`. -/
def tickPowered (s : MachineState) (i : TickIn) : MachineState × List CrystalEv :=
  let a := poweredRead1 i.r1 (poweredRead0 i.r0 ⟨s, [], true⟩)
  let afterBranch :=
    if a.bc = false then
      ({ a.st with LS1 :=
          if a.st.LS1.ActivePattern ≠ .flash ∨ a.st.LS1.Color1 ≠ Color 255 0 0 then
            a.st.LS1.Flash (Color 255 0 0)
          else a.st.LS1 }, a.evs)
    else if i.door = false then
      let st := if i.power && a.bc then { a.st with beakerDoor := true } else a.st
      ({ st with LS1 :=
          if st.LS1.ActivePattern ≠ .flash ∨ st.LS1.Color1 ≠ Color 0 255 0 then
            st.LS1.Flash (Color 0 255 0)
          else st.LS1 }, a.evs)
    else if i.power && a.bc && i.door then
      (onSolve a.st i.now, a.evs ++ crystalPulse)
    else (a.st, a.evs)
  let st := afterBranch.1
  let st :=
    if i.power = false then
      { st with
        LS1 := st.LS1.ColorSet (Color 0 0 0)
        LS2 := st.LS2.ColorSet (Color 0 0 0)
        LS3 := st.LS3.ColorSet (Color 0 0 0)
        LS4 := st.LS4.ColorSet (Color 0 0 0)
        puzzleState := .Unpowered }
    else st
  (st, afterBranch.2)

/-- One iteration of the `Solved`/`GameOver` reader loops: `getInventory`
into `thisUid`, then — with `rc` ignored — call `onReset()` when
`memcmp(thisUid, resetUid, 8) == 0`.  On a failed read `thisUid` is the
unwritten stack buffer, i.e. `r.residual`. -/
def resetCheck (r : ReaderIn) (s : MachineState) : MachineState × List CrystalEv :=
  let thisUid := r.read.getD r.residual
  if thisUid = resetUid then (onReset s, crystalPulse) else (s, [])

/-- The reader loop shared by the `Solved` and `GameOver` cases: one
`resetCheck` per reader, in order, threading the state. -/
def readerResetLoop (i : TickIn) (s : MachineState) : MachineState × List CrystalEv :=
  ((resetCheck i.r1 (resetCheck i.r0 s).1).1,
   (resetCheck i.r0 s).2 ++ (resetCheck i.r1 (resetCheck i.r0 s).1).2)

/-- The "hold the final colour set" block of the `Solved` case: re-fill any
strip whose `Color1` drifted from its final colour (LS1/LS2/LS4 green, LS3
purple). -/
def solvedLights (s : MachineState) : MachineState :=
  let s := if s.LS1.Color1 ≠ Color 0 255 0 then { s with LS1 := s.LS1.ColorSet (Color 0 255 0) } else s
  let s := if s.LS2.Color1 ≠ Color 0 255 0 then { s with LS2 := s.LS2.ColorSet (Color 0 255 0) } else s
  let s := if s.LS3.Color1 ≠ Color 128 0 128 then { s with LS3 := s.LS3.ColorSet (Color 128 0 128) } else s
  if s.LS4.Color1 ≠ Color 0 255 0 then { s with LS4 := s.LS4.ColorSet (Color 0 255 0) } else s

/-- The `Solved` case of `loop()`: game over once
`currentMillis - solvedMillis > 1800000` (strict, in `unsigned long`
arithmetic), otherwise re-assert the final colour set; then the reader loop
that only looks for the reset tag. -/
def tickSolved (s : MachineState) (i : TickIn) : MachineState × List CrystalEv :=
  readerResetLoop i
    (if usub32 i.now s.solvedMillis > 1800000 then gameOver s else solvedLights s)

/-- The strip block of the `GameOver` case: extinguish any strip whose
pattern is still active. -/
def gameOverLights (s : MachineState) : MachineState :=
  { s with
    LS1 := extinguishIfActive s.LS1
    LS2 := extinguishIfActive s.LS2
    LS3 := extinguishIfActive s.LS3
    LS4 := extinguishIfActive s.LS4 }

/-- The `GameOver` case of `loop()`: extinguish still-active strips, then
the reset-only reader loop. -/
def tickGameOver (s : MachineState) (i : TickIn) : MachineState × List CrystalEv :=
  readerResetLoop i (gameOverLights s)

/-- The `Initializing` case of `loop()`: extinguish active strips, write the
beaker-door pin LOW (the crystal-door write is commented out), and move to
`Unpowered`. -/
def tickInitializing (s : MachineState) : MachineState :=
  { s with
    LS1 := extinguishIfActive s.LS1
    LS2 := extinguishIfActive s.LS2
    LS3 := extinguishIfActive s.LS3
    LS4 := extinguishIfActive s.LS4
    beakerDoor := false
    puzzleState := .Unpowered }

/-- The `Unpowered` case of `loop()`: extinguish active strips, then move to
`Powered` exactly when the laser is detected.  No reader is polled and no
lock pin is written. -/
def tickUnpowered (s : MachineState) (i : TickIn) : MachineState :=
  let s := { s with
    LS1 := extinguishIfActive s.LS1
    LS2 := extinguishIfActive s.LS2
    LS3 := extinguishIfActive s.LS3
    LS4 := extinguishIfActive s.LS4 }
  if i.power then { s with puzzleState := .Powered }
  else { s with puzzleState := .Unpowered }

/-- One execution of `loop()`: dispatch on `puzzleState`.  The trailing
`client.loop()` (MQTT pump) and the `LSn.Update()` frame advances do not
change any state the claims observe; the MQTT callback is modelled
separately as `callback`. -/
def loop (s : MachineState) (i : TickIn) : MachineState × List CrystalEv :=
  match s.puzzleState with
  | .Initializing => (tickInitializing s, [])
  | .Unpowered => (tickUnpowered s i, [])
  | .Powered => tickPowered s i
  | .Solved => tickSolved s i
  | .GameOver => tickGameOver s i

/-- Run a sequence of ticks. -/
def run (s : MachineState) (ins : List TickIn) : MachineState :=
  match ins with
  | [] => s
  | i :: rest => run (loop s i).1 rest

/-- The state `setup()` leaves behind: `puzzleState = Initializing` (global
initializer), `solvedMillis = 0`, both lock pins LOW, `lastUid` zeroed
(zero-initialized globals), and every strip filled black with no pattern
(the last `ColorSet` of `setup()` is black on all four strips). -/
def initState : MachineState :=
  { puzzleState := .Initializing
    solvedMillis := 0
    beakerDoor := false
    crystalDoor := false
    lastUid0 := noUid
    lastUid1 := noUid
    LS1 := ⟨.none, 0, 0⟩
    LS2 := ⟨.none, 0, 0⟩
    LS3 := ⟨.none, 0, 0⟩
    LS4 := ⟨.none, 0, 0⟩ }

/-- `tolower` on a byte, C locale (ASCII): `A`..`Z` map down, all else is
unchanged. -/
def toLowerByte (b : Nat) : Nat := if 65 ≤ b ∧ b ≤ 90 then b + 32 else b

/-- The C string a byte buffer denotes: its bytes up to the first NUL.
`callback` copies the payload, NUL-terminates it, and compares with
`strcmp`, which stops at the first NUL. -/
def cString (l : List Nat) : List Nat := l.takeWhile (fun b => b ≠ 0)

/-- The bytes of the literal `"solve"`. -/
def solveStr : List Nat := [115, 111, 108, 118, 101]

/-- The bytes of the literal `"reset"`. -/
def resetStr : List Nat := [114, 101, 115, 101, 116]

/-- `callback(topic, message, length)` of `WifiFunctions.h`: copy the
`length` payload bytes, NUL-terminate, `tolower` each payload byte, then
`strcmp` against `"solve"` and `"reset"`; anything else is ignored.  `now`
is the `millis()` value at delivery (for `onSolve`'s timestamp). -/
def callback (payload : List Nat) (s : MachineState) (now : Nat) :
    MachineState × List CrystalEv :=
  let msg := cString (payload.map toLowerByte)
  if msg = solveStr then (onSolve s now, crystalPulse)
  else if msg = resetStr then (onReset s, crystalPulse)
  else (s, [])

/-- The per-tick token classification of the spec's TokenMatcher. -/
inductive Classification where
  | AllCorrect
  | Incorrect
  | ResetRequested
deriving Repr, DecidableEq

/-- The classification the `Powered` reader loop computes, read off from the
loop itself: run both iterations from a fresh accumulator; a reset was
requested exactly when some iteration fired `onReset` (a crystal pulse was
emitted), and otherwise the `beakersCorrect` flag decides. -/
def classify (r0 r1 : ReaderIn) : Classification :=
  let a := poweredRead1 r1 (poweredRead0 r0 ⟨initState, [], true⟩)
  if a.evs ≠ [] then .ResetRequested
  else if a.bc then .AllCorrect
  else .Incorrect

/-- `wfPulses evs` holds when the crystal-pin event list is a sequence of
complete 10 ms pulses: every HIGH is followed, within the same tick, by the
10 ms wait and the LOW. -/
def wfPulses : List CrystalEv → Bool
  | [] => true
  | .high :: .wait 10 :: .low :: rest => wfPulses rest
  | _ => false

/-! ## Helper lemmas -/

/-- The configured UIDs are pairwise distinct; in particular the reset tag
matches neither correct tag. -/
theorem correctUid0_ne_resetUid : correctUid0 ≠ resetUid := by decide

theorem correctUid1_ne_resetUid : correctUid1 ≠ resetUid := by decide

/-- Reader-loop iteration 0 computes `beakersCorrect` as: previous flag and
"reader 0 read exactly `correctUid[0]`". -/
theorem poweredRead0_bc (r : ReaderIn) (a : PAcc) :
    (poweredRead0 r a).bc = (decide (r.read = some correctUid0) && a.bc) := by
  obtain ⟨or, g⟩ := r
  cases or <;> dsimp only [poweredRead0] <;> (try split_ifs) <;> simp_all

/-- Reader-loop iteration 1 computes `beakersCorrect` as: previous flag and
"reader 1 read exactly `correctUid[1]`". -/
theorem poweredRead1_bc (r : ReaderIn) (a : PAcc) :
    (poweredRead1 r a).bc = (decide (r.read = some correctUid1) && a.bc) := by
  obtain ⟨or, g⟩ := r
  cases or <;> dsimp only [poweredRead1] <;> (try split_ifs) <;> simp_all

/-- Reader-loop iteration 0 pulses the crystal lock exactly when it read the
reset tag. -/
theorem poweredRead0_evs (r : ReaderIn) (a : PAcc) :
    (poweredRead0 r a).evs =
      a.evs ++ (if r.read = some resetUid then crystalPulse else []) := by
  obtain ⟨or, g⟩ := r
  cases or <;> dsimp only [poweredRead0] <;> (try split_ifs) <;> simp_all

/-- Reader-loop iteration 1 pulses the crystal lock exactly when it read the
reset tag. -/
theorem poweredRead1_evs (r : ReaderIn) (a : PAcc) :
    (poweredRead1 r a).evs =
      a.evs ++ (if r.read = some resetUid then crystalPulse else []) := by
  obtain ⟨or, g⟩ := r
  cases or <;> dsimp only [poweredRead1] <;> (try split_ifs) <;> simp_all

/-- When reader 0 did not read the reset tag, its loop iteration touches
nothing but `lastUid[0]` and the `beakersCorrect` flag. -/
theorem poweredRead0_noReset (r : ReaderIn) (a : PAcc) (h : r.read ≠ some resetUid) :
    (poweredRead0 r a).st.puzzleState = a.st.puzzleState ∧
    (poweredRead0 r a).st.beakerDoor = a.st.beakerDoor ∧
    (poweredRead0 r a).st.crystalDoor = a.st.crystalDoor ∧
    (poweredRead0 r a).st.solvedMillis = a.st.solvedMillis ∧
    (poweredRead0 r a).st.LS1 = a.st.LS1 ∧ (poweredRead0 r a).st.LS2 = a.st.LS2 ∧
    (poweredRead0 r a).st.LS3 = a.st.LS3 ∧ (poweredRead0 r a).st.LS4 = a.st.LS4 := by
  obtain ⟨or, g⟩ := r
  cases or <;> dsimp only [poweredRead0] <;> (try split_ifs) <;> simp_all

/-- When reader 1 did not read the reset tag, its loop iteration touches
nothing but `lastUid[1]` and the `beakersCorrect` flag. -/
theorem poweredRead1_noReset (r : ReaderIn) (a : PAcc) (h : r.read ≠ some resetUid) :
    (poweredRead1 r a).st.puzzleState = a.st.puzzleState ∧
    (poweredRead1 r a).st.beakerDoor = a.st.beakerDoor ∧
    (poweredRead1 r a).st.crystalDoor = a.st.crystalDoor ∧
    (poweredRead1 r a).st.solvedMillis = a.st.solvedMillis ∧
    (poweredRead1 r a).st.LS1 = a.st.LS1 ∧ (poweredRead1 r a).st.LS2 = a.st.LS2 ∧
    (poweredRead1 r a).st.LS3 = a.st.LS3 ∧ (poweredRead1 r a).st.LS4 = a.st.LS4 := by
  obtain ⟨or, g⟩ := r
  cases or <;> dsimp only [poweredRead1] <;> (try split_ifs) <;> simp_all

/-- When reader 0 read the reset tag, its loop iteration ends in the
`onReset` state: `Unpowered`, both locks inactive, every pattern stopped. -/
theorem poweredRead0_reset (r : ReaderIn) (a : PAcc) (h : r.read = some resetUid) :
    (poweredRead0 r a).st.puzzleState = .Unpowered ∧
    (poweredRead0 r a).st.beakerDoor = false ∧
    (poweredRead0 r a).st.crystalDoor = false ∧
    (poweredRead0 r a).st.LS1.ActivePattern = .none ∧
    (poweredRead0 r a).st.LS2.ActivePattern = .none ∧
    (poweredRead0 r a).st.LS3.ActivePattern = .none ∧
    (poweredRead0 r a).st.LS4.ActivePattern = .none := by
  obtain ⟨or, g⟩ := r
  cases or <;> dsimp only [poweredRead0] <;> split_ifs <;>
    simp_all [onReset, NeoPatterns.ColorSet]

/-- When reader 1 read the reset tag, its loop iteration ends in the
`onReset` state: `Unpowered`, both locks inactive, every pattern stopped. -/
theorem poweredRead1_reset (r : ReaderIn) (a : PAcc) (h : r.read = some resetUid) :
    (poweredRead1 r a).st.puzzleState = .Unpowered ∧
    (poweredRead1 r a).st.beakerDoor = false ∧
    (poweredRead1 r a).st.crystalDoor = false ∧
    (poweredRead1 r a).st.LS1.ActivePattern = .none ∧
    (poweredRead1 r a).st.LS2.ActivePattern = .none ∧
    (poweredRead1 r a).st.LS3.ActivePattern = .none ∧
    (poweredRead1 r a).st.LS4.ActivePattern = .none := by
  obtain ⟨or, g⟩ := r
  cases or <;> dsimp only [poweredRead1] <;> split_ifs <;>
    simp_all [onReset, NeoPatterns.ColorSet]

/-- A reader-loop iteration leaves `puzzleState` alone or forces
`Unpowered`. -/
theorem poweredRead0_ps (r : ReaderIn) (a : PAcc) :
    (poweredRead0 r a).st.puzzleState = a.st.puzzleState ∨
    (poweredRead0 r a).st.puzzleState = .Unpowered := by
  obtain ⟨or, g⟩ := r
  cases or <;> dsimp only [poweredRead0] <;> (try split_ifs) <;> simp_all [onReset]

theorem poweredRead1_ps (r : ReaderIn) (a : PAcc) :
    (poweredRead1 r a).st.puzzleState = a.st.puzzleState ∨
    (poweredRead1 r a).st.puzzleState = .Unpowered := by
  obtain ⟨or, g⟩ := r
  cases or <;> dsimp only [poweredRead1] <;> (try split_ifs) <;> simp_all [onReset]

/-- A reader-loop iteration leaves the crystal pin alone or drives it LOW
(pulse completed). -/
theorem poweredRead0_crystal (r : ReaderIn) (a : PAcc) :
    (poweredRead0 r a).st.crystalDoor = a.st.crystalDoor ∨
    (poweredRead0 r a).st.crystalDoor = false := by
  obtain ⟨or, g⟩ := r
  cases or <;> dsimp only [poweredRead0] <;> (try split_ifs) <;> simp_all [onReset]

theorem poweredRead1_crystal (r : ReaderIn) (a : PAcc) :
    (poweredRead1 r a).st.crystalDoor = a.st.crystalDoor ∨
    (poweredRead1 r a).st.crystalDoor = false := by
  obtain ⟨or, g⟩ := r
  cases or <;> dsimp only [poweredRead1] <;> (try split_ifs) <;> simp_all [onReset]

/-- A `Solved`/`GameOver` reader-loop iteration either leaves everything
unchanged with no crystal event, or ends in the `onReset` state. -/
theorem readerResetLoop_cases (i : TickIn) (s : MachineState) :
    readerResetLoop i s = (s, []) ∨
    ((readerResetLoop i s).1.puzzleState = .Unpowered ∧
     (readerResetLoop i s).1.beakerDoor = false ∧
     (readerResetLoop i s).1.crystalDoor = false ∧
     (readerResetLoop i s).1.LS1.ActivePattern = .none ∧
     (readerResetLoop i s).1.LS2.ActivePattern = .none ∧
     (readerResetLoop i s).1.LS3.ActivePattern = .none ∧
     (readerResetLoop i s).1.LS4.ActivePattern = .none) := by
  by_cases h0 : i.r0.read.getD i.r0.residual = resetUid <;>
    by_cases h1 : i.r1.read.getD i.r1.residual = resetUid <;>
      simp [readerResetLoop, resetCheck, h0, h1, onReset, NeoPatterns.ColorSet]

/-- The `Solved`/`GameOver` reader loop emits one crystal pulse per reader
that observed the reset tag (possibly via the uninitialized buffer). -/
theorem readerResetLoop_evs (i : TickIn) (s : MachineState) :
    (readerResetLoop i s).2 =
      (if i.r0.read.getD i.r0.residual = resetUid then crystalPulse else []) ++
      (if i.r1.read.getD i.r1.residual = resetUid then crystalPulse else []) := by
  by_cases h0 : i.r0.read.getD i.r0.residual = resetUid <;>
    by_cases h1 : i.r1.read.getD i.r1.residual = resetUid <;>
      simp [readerResetLoop, resetCheck, h0, h1]

/-- The `Solved`/`GameOver` reader loop run with no reset observation on
either reader changes nothing and emits nothing. -/
theorem readerResetLoop_noReset (i : TickIn) (s : MachineState)
    (h0 : i.r0.read.getD i.r0.residual ≠ resetUid)
    (h1 : i.r1.read.getD i.r1.residual ≠ resetUid) :
    readerResetLoop i s = (s, []) := by
  simp [readerResetLoop, resetCheck, h0, h1]

/-- The `Solved` hold-colours block never changes `puzzleState`, the lock
pins, or `solvedMillis`. -/
theorem solvedLights_frame (s : MachineState) :
    (solvedLights s).puzzleState = s.puzzleState ∧
    (solvedLights s).beakerDoor = s.beakerDoor ∧
    (solvedLights s).crystalDoor = s.crystalDoor ∧
    (solvedLights s).solvedMillis = s.solvedMillis := by
  simp only [solvedLights]
  split_ifs <;> simp

/-- The `Powered` case never produces `Initializing` or `GameOver`: its
result state is the loop's own (`Powered`, possibly reset to `Unpowered`),
`Unpowered`, or `Solved`. -/
theorem tickPowered_ps (s : MachineState) (i : TickIn) :
    (tickPowered s i).1.puzzleState = s.puzzleState ∨
    (tickPowered s i).1.puzzleState = .Unpowered ∨
    (tickPowered s i).1.puzzleState = .Solved := by
  have h0 := poweredRead0_ps i.r0 ⟨s, [], true⟩
  have h1 := poweredRead1_ps i.r1 (poweredRead0 i.r0 ⟨s, [], true⟩)
  simp only [tickPowered]
  rcases h0 with h0 | h0 <;> rcases h1 with h1 | h1 <;> split_ifs <;> simp_all [onSolve]

/-- No tick ever re-enters `Initializing`: every case of `loop()` leaves
`puzzleState` in `{Unpowered, Powered, Solved, GameOver}`. -/
theorem loop_ne_initializing (s : MachineState) (i : TickIn) :
    (loop s i).1.puzzleState ≠ .Initializing := by
  unfold loop
  split
  · simp [tickInitializing]
  · unfold tickUnpowered
    split <;> simp
  · rcases tickPowered_ps s i with h | h | h <;> simp_all
  · rename_i heq
    unfold tickSolved
    rcases readerResetLoop_cases i
        (if usub32 i.now s.solvedMillis > 1800000 then gameOver s else solvedLights s) with
      hc | hc
    · rw [hc]
      split_ifs <;> simp [gameOver, (solvedLights_frame s).1, heq]
    · rw [hc.1]
      simp
  · rename_i heq
    unfold tickGameOver
    rcases readerResetLoop_cases i (gameOverLights s) with hc | hc
    · rw [hc]
      simp [gameOverLights, heq]
    · rw [hc.1]
      simp

/-- Any tick leaves the crystal pin LOW if it was LOW: every write sequence
to it is a complete pulse ending LOW. -/
theorem loop_crystal (s : MachineState) (i : TickIn) (h : s.crystalDoor = false) :
    (loop s i).1.crystalDoor = false := by
  unfold loop
  split
  · simp [tickInitializing, h]
  · unfold tickUnpowered
    split <;> simp [h]
  · have h0 := poweredRead0_crystal i.r0 ⟨s, [], true⟩
    have h1 := poweredRead1_crystal i.r1 (poweredRead0 i.r0 ⟨s, [], true⟩)
    simp only [tickPowered]
    rcases h0 with h0 | h0 <;> rcases h1 with h1 | h1 <;> split_ifs <;>
      simp_all [onSolve]
  · unfold tickSolved
    rcases readerResetLoop_cases i
        (if usub32 i.now s.solvedMillis > 1800000 then gameOver s else solvedLights s) with
      hc | hc
    · rw [hc]
      split_ifs <;> simp [gameOver, (solvedLights_frame s).2.2.1, h]
    · exact hc.2.2.1
  · unfold tickGameOver
    rcases readerResetLoop_cases i (gameOverLights s) with hc | hc
    · rw [hc]
      simp [gameOverLights, h]
    · exact hc.2.2.1

/-- The crystal pin is LOW at every tick boundary of every run from the
post-`setup()` state. -/
theorem run_crystal (ins : List TickIn) :
    ∀ s : MachineState, s.crystalDoor = false → (run s ins).crystalDoor = false := by
  induction ins with
  | nil => intro s h; simpa [run] using h
  | cons i t ih =>
    intro s h
    simp only [run]
    exact ih _ (loop_crystal s i h)

/-- `Initializing` is never re-entered along any run. -/
theorem run_ne_initializing (ins : List TickIn) :
    ∀ s : MachineState, s.puzzleState ≠ .Initializing →
      (run s ins).puzzleState ≠ .Initializing := by
  induction ins with
  | nil => intro s h; simpa [run] using h
  | cons i t ih =>
    intro s h
    simp only [run]
    exact ih _ (loop_ne_initializing s i)

/-- Appending one complete pulse preserves pulse wellformedness. -/
theorem wfPulses_append (xs : List CrystalEv) (h : wfPulses xs = true) :
    wfPulses (xs ++ crystalPulse) = true := by
  induction xs using wfPulses.induct <;> simp_all [wfPulses, crystalPulse]

/-- When some reader of the `Solved`/`GameOver` loop observes the reset tag
(directly or through the uninitialized buffer), the loop ends in the
`onReset` state. -/
theorem readerResetLoop_reset (i : TickIn) (s : MachineState)
    (h : i.r0.read.getD i.r0.residual = resetUid ∨
         i.r1.read.getD i.r1.residual = resetUid) :
    (readerResetLoop i s).1.puzzleState = .Unpowered ∧
    (readerResetLoop i s).1.beakerDoor = false ∧
    (readerResetLoop i s).1.crystalDoor = false ∧
    (readerResetLoop i s).1.LS1.ActivePattern = .none ∧
    (readerResetLoop i s).1.LS2.ActivePattern = .none ∧
    (readerResetLoop i s).1.LS3.ActivePattern = .none ∧
    (readerResetLoop i s).1.LS4.ActivePattern = .none := by
  by_cases h0 : i.r0.read.getD i.r0.residual = resetUid <;>
    by_cases h1 : i.r1.read.getD i.r1.residual = resetUid <;>
      simp_all [readerResetLoop, resetCheck, onReset, NeoPatterns.ColorSet]

/-! ## Claim theorems -/

/-- C3: from `Powered`, if both readers return exactly their configured
correct identifiers, the door sensor is asserted, and power is asserted in
the same tick, then the next observed state is `Solved` and the recorded
solve timestamp equals that tick's time. -/
theorem powered_solve_edge (s : MachineState) (i : TickIn)
    (hst : s.puzzleState = .Powered)
    (h0 : i.r0.read = some correctUid0) (h1 : i.r1.read = some correctUid1)
    (hdoor : i.door = true) (hpow : i.power = true) :
    (loop s i).1.puzzleState = .Solved ∧ (loop s i).1.solvedMillis = i.now := by
  have hbc : (poweredRead1 i.r1 (poweredRead0 i.r0 ⟨s, [], true⟩)).bc = true := by
    rw [poweredRead1_bc, poweredRead0_bc, h0, h1]
    simp
  simp only [loop, hst]
  simp only [tickPowered, hbc, hdoor, hpow]
  simp [onSolve]

/-- Witness for C3 at a concrete `Powered` state and tick input. -/
theorem powered_solve_edge_witness :
    ({ initState with puzzleState := .Powered } : MachineState).puzzleState = .Powered ∧
    (loop { initState with puzzleState := .Powered }
        ⟨true, true, ⟨some correctUid0, noUid⟩, ⟨some correctUid1, noUid⟩, 42⟩).1.puzzleState
      = .Solved ∧
    (loop { initState with puzzleState := .Powered }
        ⟨true, true, ⟨some correctUid0, noUid⟩, ⟨some correctUid1, noUid⟩, 42⟩).1.solvedMillis
      = 42 :=
  ⟨rfl,
   (powered_solve_edge _ _ rfl rfl rfl rfl rfl).1,
   (powered_solve_edge _ _ rfl rfl rfl rfl rfl).2⟩

/-- C4: per-tick token classification.  A reset read on either reader wins
regardless of the other reader; with no reset read, `AllCorrect` holds
exactly when both readers read their configured correct identifiers, and
anything else — absent or mismatched — is `Incorrect`. -/
theorem classify_spec (r0 r1 : ReaderIn) :
    ((r0.read = some resetUid ∨ r1.read = some resetUid) →
      classify r0 r1 = .ResetRequested) ∧
    (r0.read ≠ some resetUid → r1.read ≠ some resetUid →
      (classify r0 r1 = .AllCorrect ↔
        r0.read = some correctUid0 ∧ r1.read = some correctUid1)) ∧
    (r0.read ≠ some resetUid → r1.read ≠ some resetUid →
      ¬(r0.read = some correctUid0 ∧ r1.read = some correctUid1) →
      classify r0 r1 = .Incorrect) := by
  have e0 := poweredRead0_evs r0 ⟨initState, [], true⟩
  have e1 := poweredRead1_evs r1 (poweredRead0 r0 ⟨initState, [], true⟩)
  have b0 := poweredRead0_bc r0 ⟨initState, [], true⟩
  have b1 := poweredRead1_bc r1 (poweredRead0 r0 ⟨initState, [], true⟩)
  refine ⟨?_, ?_, ?_⟩
  · intro h
    simp only [classify]
    rw [e1, e0]
    rcases h with h | h <;> simp [h, crystalPulse]
  · intro hn0 hn1
    simp only [classify]
    rw [e1, e0, b1, b0]
    simp only [hn0, hn1, if_neg]
    by_cases hc0 : r0.read = some correctUid0 <;>
      by_cases hc1 : r1.read = some correctUid1 <;> simp [hc0, hc1]
  · intro hn0 hn1 hnc
    simp only [classify]
    rw [e1, e0, b1, b0]
    by_cases hc0 : r0.read = some correctUid0 <;>
      by_cases hc1 : r1.read = some correctUid1 <;> simp_all

/-- Witness for C4: the spec's two scenarios, `[correct0, absent]` is
`Incorrect` and `[reset, correct1]` is `ResetRequested`. -/
theorem classify_spec_witness :
    classify ⟨some correctUid0, noUid⟩ ⟨none, noUid⟩ = .Incorrect ∧
    classify ⟨some resetUid, noUid⟩ ⟨some correctUid1, noUid⟩ = .ResetRequested :=
  ⟨(classify_spec _ _).2.2 (by decide) (by decide) (by decide),
   (classify_spec _ _).1 (Or.inl rfl)⟩

/-- C5 counterexample: with the solve timestamp at 0 and the tick's time
exactly the dwell (1 800 000 ms), the elapsed time has reached the dwell yet
the state remains `Solved` — the source compares with strict `>`. -/
theorem solved_dwell_boundary_counterexample :
    usub32 1800000 0 = 1800000 ∧
    (loop { initState with puzzleState := .Solved }
        ⟨true, true, ⟨none, noUid⟩, ⟨none, noUid⟩, 1800000⟩).1.puzzleState = .Solved := by
  decide

/-- C5 amended: from `Solved` with no reset observation, the next state is
`GameOver` exactly when the elapsed time strictly exceeds the 1 800 000 ms
dwell (so elapsed = dwell − 1 and elapsed = dwell both stay `Solved`). -/
theorem solved_gameover_iff_elapsed_gt_dwell (s : MachineState) (i : TickIn)
    (hst : s.puzzleState = .Solved)
    (h0 : i.r0.read.getD i.r0.residual ≠ resetUid)
    (h1 : i.r1.read.getD i.r1.residual ≠ resetUid) :
    ((loop s i).1.puzzleState = .GameOver ↔ usub32 i.now s.solvedMillis > 1800000) := by
  simp only [loop, hst]
  unfold tickSolved
  rw [readerResetLoop_noReset i _ h0 h1]
  split_ifs with hd
  · simp [gameOver, hd]
  · simp [(solvedLights_frame s).1, hst, hd]

/-- Witness for C5 (amended) at elapsed = dwell + 1. -/
theorem solved_gameover_iff_elapsed_gt_dwell_witness :
    ({ initState with puzzleState := .Solved } : MachineState).puzzleState = .Solved ∧
    (loop { initState with puzzleState := .Solved }
        ⟨true, true, ⟨none, noUid⟩, ⟨none, noUid⟩, 1800001⟩).1.puzzleState = .GameOver :=
  ⟨rfl,
   (solved_gameover_iff_elapsed_gt_dwell _ _ rfl (by decide) (by decide)).mpr (by decide)⟩

/-- C9 counterexample: the seven-byte payload `"solve\x00A"` is not the
payload `"solve"`, even case-folded, yet `strcmp` stops at the embedded NUL
and the callback forces the solve sequence (a state change). -/
theorem callback_nul_payload_counterexample :
    (callback [115, 111, 108, 118, 101, 0, 65] initState 7).1.puzzleState = .Solved ∧
    List.map toLowerByte [115, 111, 108, 118, 101, 0, 65] ≠ solveStr ∧
    initState.puzzleState ≠ .Solved := by
  decide

/-- C9 amended: the callback lowercases the payload and compares it as a
NUL-terminated C string, so exactly the payloads whose bytes before the
first NUL case-fold to `"solve"` force the solve sequence (state `Solved`),
those case-folding to `"reset"` act as a reset (state `Unpowered`), and any
other payload changes nothing. -/
theorem callback_cstring_spec (payload : List Nat) (s : MachineState) (now : Nat) :
    (cString (payload.map toLowerByte) = solveStr →
      (callback payload s now).1.puzzleState = .Solved) ∧
    (cString (payload.map toLowerByte) = resetStr →
      (callback payload s now).1.puzzleState = .Unpowered) ∧
    (cString (payload.map toLowerByte) ≠ solveStr →
     cString (payload.map toLowerByte) ≠ resetStr →
      (callback payload s now).1 = s) := by
  refine ⟨?_, ?_, ?_⟩
  · intro h
    simp [callback, h, onSolve]
  · intro h
    simp [callback, h, onReset, show resetStr ≠ solveStr by decide]
  · intro h1 h2
    simp [callback, h1, h2]

/-- Witness for C9 (amended): the uppercase payload `"SOLVE"` forces the
solve sequence. -/
theorem callback_cstring_spec_witness :
    cString (List.map toLowerByte [83, 79, 76, 86, 69]) = solveStr ∧
    (callback [83, 79, 76, 86, 69] initState 3).1.puzzleState = .Solved :=
  ⟨by decide, (callback_cstring_spec _ _ _).1 (by decide)⟩

/-- C10: the `Unpowered` tick handler never writes the beaker-lock pin, and
a `GameOver` tick that stays in `GameOver` leaves it unchanged too; the only
way a `GameOver` tick touches the lock is `onReset`, which leaves `GameOver`
for `Unpowered` with the lock released. -/
theorem beaker_lock_frame (s : MachineState) (i : TickIn) :
    (s.puzzleState = .Unpowered → (loop s i).1.beakerDoor = s.beakerDoor) ∧
    (s.puzzleState = .GameOver → (loop s i).1.puzzleState = .GameOver →
      (loop s i).1.beakerDoor = s.beakerDoor) ∧
    (s.puzzleState = .GameOver →
      (loop s i).1.puzzleState = .GameOver ∨
      ((loop s i).1.puzzleState = .Unpowered ∧ (loop s i).1.beakerDoor = false)) := by
  refine ⟨?_, ?_, ?_⟩
  · intro h
    simp only [loop, h]
    unfold tickUnpowered
    split_ifs <;> rfl
  · intro h hres
    rw [show loop s i = tickGameOver s i by simp only [loop, h]] at hres ⊢
    unfold tickGameOver at hres ⊢
    rcases readerResetLoop_cases i (gameOverLights s) with hc | hc
    · rw [hc]
      rfl
    · rw [hc.1] at hres
      exact absurd hres (by simp)
  · intro h
    rw [show loop s i = tickGameOver s i by simp only [loop, h]]
    unfold tickGameOver
    rcases readerResetLoop_cases i (gameOverLights s) with hc | hc
    · left
      rw [hc]
      simpa [gameOverLights] using h
    · right
      exact ⟨hc.1, hc.2.1⟩

/-- Witness for C10: a `GameOver` tick with the lock (impossibly) engaged
and no reset leaves both the state and the lock level unchanged. -/
theorem beaker_lock_frame_witness :
    ({ initState with puzzleState := .Unpowered, beakerDoor := true } : MachineState).puzzleState
      = .Unpowered ∧
    (loop { initState with puzzleState := .Unpowered, beakerDoor := true }
        ⟨false, false, ⟨none, noUid⟩, ⟨none, noUid⟩, 0⟩).1.beakerDoor = true :=
  ⟨rfl, (beaker_lock_frame _ _).1 rfl⟩

/-- C1 counterexample: from the post-`setup()` state, power the machine,
place both correct beakers with the door open (the lock engages), then cut
power: the machine reaches `Unpowered` with the beaker lock still engaged,
so the power-loss transition did not release it. -/
theorem powerloss_lock_held_counterexample :
    (run initState
      [⟨false, false, ⟨none, noUid⟩, ⟨none, noUid⟩, 0⟩,
       ⟨true, false, ⟨none, noUid⟩, ⟨none, noUid⟩, 100⟩,
       ⟨true, false, ⟨some correctUid0, noUid⟩, ⟨some correctUid1, noUid⟩, 200⟩,
       ⟨false, false, ⟨some correctUid0, noUid⟩, ⟨some correctUid1, noUid⟩, 300⟩]).puzzleState
      = .Unpowered ∧
    (run initState
      [⟨false, false, ⟨none, noUid⟩, ⟨none, noUid⟩, 0⟩,
       ⟨true, false, ⟨none, noUid⟩, ⟨none, noUid⟩, 100⟩,
       ⟨true, false, ⟨some correctUid0, noUid⟩, ⟨some correctUid1, noUid⟩, 200⟩,
       ⟨false, false, ⟨some correctUid0, noUid⟩, ⟨some correctUid1, noUid⟩, 300⟩]).beakerDoor
      = true := by
  decide

/-- C1 amended: the beaker lock is never engaged while `Initializing` (that
state occurs only before the first tick), but the `Powered` power-loss
branch does not touch the lock pin: with no reset observation it moves to
`Unpowered` with the lock level unchanged, so `Unpowered` is reachable with
the lock still engaged. -/
theorem beaker_lock_initializing_powerloss (s : MachineState) (i : TickIn)
    (ins : List TickIn) :
    ((run initState ins).puzzleState = .Initializing →
      (run initState ins).beakerDoor = false) ∧
    (s.puzzleState = .Powered → i.power = false →
      i.r0.read ≠ some resetUid → i.r1.read ≠ some resetUid →
      (loop s i).1.puzzleState = .Unpowered ∧
      (loop s i).1.beakerDoor = s.beakerDoor) := by
  constructor
  · intro h
    cases ins with
    | nil => rfl
    | cons a t =>
      refine absurd h ?_
      simp only [run]
      exact run_ne_initializing t _ (loop_ne_initializing initState a)
  · intro hst hpow hn0 hn1
    have hA := poweredRead0_noReset i.r0 ⟨s, [], true⟩ hn0
    have hB := poweredRead1_noReset i.r1 (poweredRead0 i.r0 ⟨s, [], true⟩) hn1
    simp only [loop, hst]
    simp only [tickPowered, hpow]
    split_ifs <;> simp_all [onSolve, NeoPatterns.ColorSet, NeoPatterns.Flash]

/-- Witness for C1 (amended) at a concrete `Powered` state with the lock
engaged and power lost. -/
theorem beaker_lock_initializing_powerloss_witness :
    ({ initState with puzzleState := .Powered, beakerDoor := true } : MachineState).puzzleState
      = .Powered ∧
    (loop { initState with puzzleState := .Powered, beakerDoor := true }
        ⟨false, false, ⟨none, noUid⟩, ⟨none, noUid⟩, 50⟩).1.puzzleState = .Unpowered ∧
    (loop { initState with puzzleState := .Powered, beakerDoor := true }
        ⟨false, false, ⟨none, noUid⟩, ⟨none, noUid⟩, 50⟩).1.beakerDoor = true :=
  ⟨rfl,
   ((beaker_lock_initializing_powerloss _ _ []).2 rfl rfl (by decide) (by decide)).1,
   ((beaker_lock_initializing_powerloss _ _ []).2 rfl rfl (by decide) (by decide)).2⟩

/-- C2 counterexample: a reset tag on reader 0 while `Powered` (with power
still present) does force `Unpowered` and release the lock, but the rest of
the same tick restarts a red flash on strip 1, so the next tick does *not*
observe all light patterns stopped. -/
theorem reset_in_powered_flash_counterexample :
    (run initState
      [⟨false, false, ⟨none, noUid⟩, ⟨none, noUid⟩, 0⟩,
       ⟨true, false, ⟨none, noUid⟩, ⟨none, noUid⟩, 100⟩,
       ⟨true, false, ⟨some resetUid, noUid⟩, ⟨some correctUid1, noUid⟩, 200⟩]).puzzleState
      = .Unpowered ∧
    (run initState
      [⟨false, false, ⟨none, noUid⟩, ⟨none, noUid⟩, 0⟩,
       ⟨true, false, ⟨none, noUid⟩, ⟨none, noUid⟩, 100⟩,
       ⟨true, false, ⟨some resetUid, noUid⟩, ⟨some correctUid1, noUid⟩, 200⟩]).LS1.ActivePattern
      = .flash ∧
    (run initState
      [⟨false, false, ⟨none, noUid⟩, ⟨none, noUid⟩, 0⟩,
       ⟨true, false, ⟨none, noUid⟩, ⟨none, noUid⟩, 100⟩,
       ⟨true, false, ⟨some resetUid, noUid⟩, ⟨some correctUid1, noUid⟩, 200⟩]).LS1.ActivePattern
      ≠ .none := by
  decide

/-- C2 amended: a reset tag observed on any reader in a reader-polling state
forces the next tick to observe `Unpowered` with the beaker lock released
and the patterns of strips 2-4 stopped; strip 1 is also stopped except when
the reset was observed in `Powered` with power still present, where the rest
of the detecting tick restarts a red flash on it (cleared by the following
`Unpowered` tick). -/
theorem reset_forces_unpowered (s : MachineState) (i : TickIn)
    (hpoll : s.puzzleState = .Powered ∨ s.puzzleState = .Solved ∨
             s.puzzleState = .GameOver)
    (hreset : i.r0.read = some resetUid ∨ i.r1.read = some resetUid) :
    (loop s i).1.puzzleState = .Unpowered ∧
    (loop s i).1.beakerDoor = false ∧
    (loop s i).1.LS2.ActivePattern = .none ∧
    (loop s i).1.LS3.ActivePattern = .none ∧
    (loop s i).1.LS4.ActivePattern = .none ∧
    (loop s i).1.LS1.ActivePattern =
      (if s.puzzleState = .Powered ∧ i.power = true then .flash else .none) := by
  have hgetD : i.r0.read.getD i.r0.residual = resetUid ∨
      i.r1.read.getD i.r1.residual = resetUid := by
    rcases hreset with h | h
    · exact Or.inl (by simp [h])
    · exact Or.inr (by simp [h])
  rcases hpoll with hP | hS | hG
  · -- Powered
    have hbc : (poweredRead1 i.r1 (poweredRead0 i.r0 ⟨s, [], true⟩)).bc = false := by
      rw [poweredRead1_bc, poweredRead0_bc]
      rcases hreset with h | h
      · simp [h, show resetUid ≠ correctUid0 by decide]
      · simp [h, show resetUid ≠ correctUid1 by decide]
    have key : (poweredRead1 i.r1 (poweredRead0 i.r0 ⟨s, [], true⟩)).st.puzzleState = .Unpowered ∧
        (poweredRead1 i.r1 (poweredRead0 i.r0 ⟨s, [], true⟩)).st.beakerDoor = false ∧
        (poweredRead1 i.r1 (poweredRead0 i.r0 ⟨s, [], true⟩)).st.LS1.ActivePattern = .none ∧
        (poweredRead1 i.r1 (poweredRead0 i.r0 ⟨s, [], true⟩)).st.LS2.ActivePattern = .none ∧
        (poweredRead1 i.r1 (poweredRead0 i.r0 ⟨s, [], true⟩)).st.LS3.ActivePattern = .none ∧
        (poweredRead1 i.r1 (poweredRead0 i.r0 ⟨s, [], true⟩)).st.LS4.ActivePattern = .none := by
      by_cases hr1 : i.r1.read = some resetUid
      · obtain ⟨fps, fbk, fcr, f1, f2, f3, f4⟩ :=
          poweredRead1_reset i.r1 (poweredRead0 i.r0 ⟨s, [], true⟩) hr1
        exact ⟨fps, fbk, f1, f2, f3, f4⟩
      · have hr0 : i.r0.read = some resetUid := hreset.resolve_right hr1
        obtain ⟨gps, gbk, gcr, g1, g2, g3, g4⟩ :=
          poweredRead0_reset i.r0 ⟨s, [], true⟩ hr0
        obtain ⟨nps, nbk, ncr, nsm, n1, n2, n3, n4⟩ :=
          poweredRead1_noReset i.r1 (poweredRead0 i.r0 ⟨s, [], true⟩) hr1
        refine ⟨nps.trans gps, nbk.trans gbk, ?_, ?_, ?_, ?_⟩
        · rw [n1]; exact g1
        · rw [n2]; exact g2
        · rw [n3]; exact g3
        · rw [n4]; exact g4
    obtain ⟨kps, kbk, k1, k2, k3, k4⟩ := key
    simp only [loop, hP]
    simp only [tickPowered, hbc, hP]
    by_cases hpw : i.power = true <;>
      simp_all [NeoPatterns.Flash, NeoPatterns.ColorSet]
  · -- Solved
    obtain ⟨fps, fbk, fcr, f1, f2, f3, f4⟩ :=
      readerResetLoop_reset i
        (if usub32 i.now s.solvedMillis > 1800000 then gameOver s else solvedLights s) hgetD
    simp only [loop, hS]
    unfold tickSolved
    refine ⟨fps, fbk, f2, f3, f4, ?_⟩
    rw [f1]
    simp [hS]
  · -- GameOver
    obtain ⟨fps, fbk, fcr, f1, f2, f3, f4⟩ :=
      readerResetLoop_reset i (gameOverLights s) hgetD
    simp only [loop, hG]
    unfold tickGameOver
    refine ⟨fps, fbk, f2, f3, f4, ?_⟩
    rw [f1]
    simp [hG]

/-- Witness for C2 (amended): a reset tag on reader 1 in `GameOver`. -/
theorem reset_forces_unpowered_witness :
    ({ initState with puzzleState := .GameOver, beakerDoor := true } : MachineState).puzzleState
      = .GameOver ∧
    (loop { initState with puzzleState := .GameOver, beakerDoor := true }
        ⟨true, false, ⟨none, noUid⟩, ⟨some resetUid, noUid⟩, 9⟩).1.puzzleState = .Unpowered ∧
    (loop { initState with puzzleState := .GameOver, beakerDoor := true }
        ⟨true, false, ⟨none, noUid⟩, ⟨some resetUid, noUid⟩, 9⟩).1.beakerDoor = false :=
  ⟨rfl,
   (reset_forces_unpowered _ _ (Or.inr (Or.inr rfl)) (Or.inr rfl)).1,
   (reset_forces_unpowered _ _ (Or.inr (Or.inr rfl)) (Or.inr rfl)).2.1⟩

/-- C6: every tick's crystal-pin activity is a sequence of complete pulses —
HIGH, a 10 ms wait, LOW — so the pin is never left energized across a tick:
if it enters a tick LOW it leaves LOW, and it is LOW at every tick boundary
of every run from the post-`setup()` state. -/
theorem crystal_pulse_bounded (s : MachineState) (i : TickIn) (ins : List TickIn) :
    wfPulses (loop s i).2 = true ∧
    (s.crystalDoor = false → (loop s i).1.crystalDoor = false) ∧
    (run initState ins).crystalDoor = false := by
  refine ⟨?_, loop_crystal s i, run_crystal ins initState rfl⟩
  unfold loop
  split
  · rfl
  · rfl
  · have e0 := poweredRead0_evs i.r0 ⟨s, [], true⟩
    have e1 := poweredRead1_evs i.r1 (poweredRead0 i.r0 ⟨s, [], true⟩)
    have hwf : wfPulses (poweredRead1 i.r1 (poweredRead0 i.r0 ⟨s, [], true⟩)).evs = true := by
      rw [e1, e0]
      split_ifs <;> simp [crystalPulse, wfPulses]
    simp only [tickPowered]
    split_ifs <;> first
      | exact hwf
      | exact wfPulses_append _ hwf
  · unfold tickSolved
    rw [readerResetLoop_evs]
    split_ifs <;> simp [crystalPulse, wfPulses]
  · unfold tickGameOver
    rw [readerResetLoop_evs]
    split_ifs <;> simp [crystalPulse, wfPulses]

/-- Witness for C6 at a concrete tick in which two pulses fire. -/
theorem crystal_pulse_bounded_witness :
    initState.crystalDoor = false ∧
    (loop { initState with puzzleState := .Solved }
        ⟨true, true, ⟨some resetUid, noUid⟩, ⟨some resetUid, noUid⟩, 1⟩).1.crystalDoor = false :=
  ⟨rfl, (crystal_pulse_bounded { initState with puzzleState := .Solved } _ []).2.1 rfl⟩

/-- C7 (code bug): in `Solved`, a failed read (`rc != ISO15693_EC_OK`, i.e.
`read = none`) on reader 0 whose unwritten stack buffer happens to hold the
reset bytes makes the tick call `onReset` — a reset and a state change
triggered by a read failure, because the `Solved`/`GameOver` reader loops
ignore `rc`. -/
theorem solved_failed_read_triggers_reset :
    (⟨none, resetUid⟩ : ReaderIn).read = none ∧
    (loop { initState with puzzleState := .Solved }
        ⟨true, true, ⟨none, resetUid⟩, ⟨none, noUid⟩, 5⟩).1.puzzleState = .Unpowered ∧
    (loop { initState with puzzleState := .Solved }
        ⟨true, true, ⟨none, resetUid⟩, ⟨none, noUid⟩, 5⟩).2 = crystalPulse := by
  decide

/-- C8 (code bug): drive the machine to `Solved` (strips green/purple), let
the dwell elapse, and take one more tick: the state is `GameOver` and the
beaker lock is released, but the strips are still filled green and purple —
not extinguished — because `gameOver()` never touches them and the
`GameOver` case only clears strips whose `ActivePattern` is still active,
which the solid-filled strips are not. -/
theorem gameover_strips_stay_lit :
    (run initState
      [⟨false, false, ⟨none, noUid⟩, ⟨none, noUid⟩, 0⟩,
       ⟨true, false, ⟨none, noUid⟩, ⟨none, noUid⟩, 100⟩,
       ⟨true, true, ⟨some correctUid0, noUid⟩, ⟨some correctUid1, noUid⟩, 200⟩,
       ⟨true, true, ⟨none, noUid⟩, ⟨none, noUid⟩, 1800201⟩,
       ⟨true, true, ⟨none, noUid⟩, ⟨none, noUid⟩, 1800301⟩]).puzzleState = .GameOver ∧
    (run initState
      [⟨false, false, ⟨none, noUid⟩, ⟨none, noUid⟩, 0⟩,
       ⟨true, false, ⟨none, noUid⟩, ⟨none, noUid⟩, 100⟩,
       ⟨true, true, ⟨some correctUid0, noUid⟩, ⟨some correctUid1, noUid⟩, 200⟩,
       ⟨true, true, ⟨none, noUid⟩, ⟨none, noUid⟩, 1800201⟩,
       ⟨true, true, ⟨none, noUid⟩, ⟨none, noUid⟩, 1800301⟩]).LS1.fillColor = Color 0 255 0 ∧
    (run initState
      [⟨false, false, ⟨none, noUid⟩, ⟨none, noUid⟩, 0⟩,
       ⟨true, false, ⟨none, noUid⟩, ⟨none, noUid⟩, 100⟩,
       ⟨true, true, ⟨some correctUid0, noUid⟩, ⟨some correctUid1, noUid⟩, 200⟩,
       ⟨true, true, ⟨none, noUid⟩, ⟨none, noUid⟩, 1800201⟩,
       ⟨true, true, ⟨none, noUid⟩, ⟨none, noUid⟩, 1800301⟩]).LS3.fillColor = Color 128 0 128 ∧
    (run initState
      [⟨false, false, ⟨none, noUid⟩, ⟨none, noUid⟩, 0⟩,
       ⟨true, false, ⟨none, noUid⟩, ⟨none, noUid⟩, 100⟩,
       ⟨true, true, ⟨some correctUid0, noUid⟩, ⟨some correctUid1, noUid⟩, 200⟩,
       ⟨true, true, ⟨none, noUid⟩, ⟨none, noUid⟩, 1800201⟩,
       ⟨true, true, ⟨none, noUid⟩, ⟨none, noUid⟩, 1800301⟩]).beakerDoor = false := by
  decide

end AlchemyMachine
